import Mathlib

/-!
Verification of the demand-forecasting / reorder-point core of the Storer
inventory backend (files `products/forecast.py`, `products/utils.py`,
`products/views.py`, `products/models.py`, `suppliers/models.py`,
`transactions/models.py`).

Modelling conventions of this shallow embedding:

* A pandas `Timestamp` (the `transaction_date` column is a Django
  `DateTimeField`, so it carries a time of day) is modelled as an integer
  number of minutes; one calendar day is 1440 minutes.  A calendar day is
  an integer day number, obtained by flooring a timestamp (`dayOf`).
* A raw transaction row `{transaction_date, quantity}` is a pair
  `(timestamp, quantity) : ℤ × ℤ` (`quantity` is an `IntegerField`).
* Python floats that may be NaN/Inf are modelled as `Option ℚ`, `none`
  standing for a non-finite value; finite values are rationals.
* External, non-deterministic components (statsmodels ARIMA fitting,
  Prophet fitting/prediction, scipy `norm.ppf`, `np.std`, the HTTP fetch
  in `get_forecasted_demand`, the Django ORM contents) are parameters
  (oracles) of the embedded functions; everything after them is the
  deterministic code of the repository, translated statement by statement.
* Python functions that can raise return `Except String _`; the string is
  the (abridged, quote-free) exception/message text.
-/

namespace Storer

/-- Minutes per calendar day: resolution of our model of pandas timestamps. -/
def minutesPerDay : ℤ := 1440

/-- The calendar day of a timestamp: floor division by `minutesPerDay`
(`pd.Grouper(freq="D")` bins timestamps by calendar day; for a positive
divisor, Euclidean division is floor division). -/
def dayOf (t : ℤ) : ℤ := t / minutesPerDay

/-- A raw observation: `(transaction_date, quantity)`. -/
abbrev Obs := ℤ × ℤ

/-- Sum of the quantities of the observations carrying exactly the
timestamp `t` (what `df.groupby("ds")["y"].sum()` assigns to key `t`). -/
def tsSum (obs : List Obs) (t : ℤ) : ℤ :=
  ((obs.filter (fun o => o.1 == t)).map Prod.snd).sum

/-- Sum of the quantities of the observations falling on calendar day `d`
(what `df.groupby(pd.Grouper(key="ds", freq="D")).sum()` assigns to the
bin of day `d`; the sum of an empty bin is 0). -/
def daySum (obs : List Obs) (d : ℤ) : ℤ :=
  ((obs.filter (fun o => dayOf o.1 == d)).map Prod.snd).sum

/-- The distinct timestamps of the input, ascending: the index produced by
`df.groupby("ds")["y"].sum().reset_index()` followed by
`df.sort_values("ds")`. -/
def sortedTimes (obs : List Obs) : List ℤ :=
  ((obs.map Prod.fst).dedup).insertionSort (· ≤ ·)

/-- The Prophet-path data preparation (`forecast.py` lines 36-41 and
119-124): group by the exact `ds` value, summing quantities, sorted by
`ds`.  One row per distinct timestamp. -/
def prophetPrep (obs : List Obs) : List (ℤ × ℤ) :=
  (sortedTimes obs).map (fun t => (t, tsSum obs t))

/-- Inclusive day range in the style of `pd.date_range`: `[lo, lo+1, ..., hi]`
(a single day when `hi ≤ lo`). -/
def dateRange (lo hi : ℤ) : List ℤ :=
  (List.range ((hi - lo).toNat + 1)).map (fun i : ℕ => lo + (i : ℤ))

/-- The ARIMA-path daily aggregation
(`df.groupby(pd.Grouper(key="ds", freq="D")).sum()`, `forecast.py`
lines 75-78 and 187-190): one bin per calendar day from the first to the
last observed day, each bin holding the day total (0 for a day with no
observations). -/
def grouperDaily (obs : List Obs) : List (ℤ × ℤ) :=
  match sortedTimes obs with
  | [] => []
  | t :: ts =>
      (dateRange (dayOf t) (dayOf (ts.getLastD t))).map (fun d => (d, daySum obs d))

/-- First index entry of a series (`s.index[0]`), 0 on an empty series. -/
def firstDate {α : Type} (s : List (ℤ × α)) : ℤ :=
  ((s.head?).map Prod.fst).getD 0

/-- Last index entry of a series (`s.index[-1]`), 0 on an empty series. -/
def lastDate {α : Type} (s : List (ℤ × α)) : ℤ :=
  ((s.getLast?).map Prod.fst).getD 0

/-- Value of a series at index `d` (`s.loc[d]` as an `Option`). -/
def seriesValue {α : Type} (s : List (ℤ × α)) (d : ℤ) : Option α :=
  (s.find? (fun p => p.1 == d)).map Prod.snd

/-- Model of `series.asfreq("D")` (`forecast.py` line 79): reindex to the dense
daily calendar spanning the series, a missing day becoming `none` (NaN). -/
def asfreqD (s : List (ℤ × ℤ)) : List (ℤ × Option ℤ) :=
  if s.isEmpty then []
  else (dateRange (firstDate s) (lastDate s)).map (fun d => (d, seriesValue s d))

/-- Model of `series.fillna(method="ffill")` (`forecast.py` line 80): carry the
last seen value forward over `none` entries; leading `none`s stay. -/
def ffillAux (carried : Option ℤ) : List (ℤ × Option ℤ) → List (ℤ × Option ℤ)
  | [] => []
  | (d, some v) :: rest => (d, some v) :: ffillAux (some v) rest
  | (d, none) :: rest => (d, carried) :: ffillAux carried rest

/-- Forward fill, starting with nothing carried. -/
def ffill (s : List (ℤ × Option ℤ)) : List (ℤ × Option ℤ) := ffillAux none s

/-- The ARIMA-path prepared series (`forecast.py` lines 75-80):
daily `Grouper` aggregation, then `asfreq("D")`, then forward fill. -/
def arimaPrep (obs : List Obs) : List (ℤ × Option ℤ) :=
  ffill (asfreqD (grouperDaily obs))

example : prophetPrep [((0:ℤ), (3:ℤ)), (0, 4)] = [(0, 7)] := by decide
example : prophetPrep [((0:ℤ), (3:ℤ)), (60, 4)] = [(0, 3), (60, 4)] := by decide
example : grouperDaily [((0:ℤ), (3:ℤ)), (60, 4)] = [(0, 7)] := by decide
example : arimaPrep [((0:ℤ), (5:ℤ)), (2880, 3)] =
    [(0, some 5), (1, some 0), (2, some 3)] := by decide

/-! ## Forecast Engine -/

/-- An ARIMA order `(p, d, q)` (Python ints). -/
abbrev ArimaOrder := ℤ × ℤ × ℤ

/-- A fitted statsmodels ARIMA model, abstracted: `forecast(steps=n)`
returns one float per future step (statsmodels always returns exactly
`n` values). -/
structure ArimaModel where
  forecastSteps : ℕ → List ℚ
  forecast_len : ∀ n, (forecastSteps n).length = n

/-- Oracle for `ARIMA(ts, order=...)` followed by `model.fit()`: either a
fitted model or the exception text thrown by constructing, fitting or
forecasting. -/
abbrev ArimaFit := List (ℤ × Option ℤ) → ArimaOrder → Except String ArimaModel

/-- Model of `pd.date_range(start, periods=n, freq="D")`: `n` consecutive days
beginning AT `start` (the start date is included). -/
def dateRangePeriods (start : ℤ) (n : ℕ) : List ℤ :=
  (List.range n).map (fun i : ℕ => start + (i : ℤ))

/-- Embedding of `forecast_demand_arima` (`forecast.py` lines 56-97): prepare the daily
series, fit ARIMA, forecast `horizon` steps, and label the forecast values
with `pd.date_range(start=ts.index[-1], periods=horizon, freq="D")`.
Exceptions from fitting/forecasting are re-raised (`raise e`). -/
def forecast_demand_arima (fit : ArimaFit) (obs : List Obs) (horizon : ℕ)
    (order : ArimaOrder) : Except String (List (ℤ × ℚ)) :=
  let ts := arimaPrep obs
  match fit ts order with
  | .error e => .error e
  | .ok m => .ok ((dateRangePeriods (lastDate ts) horizon).zip (m.forecastSteps horizon))

/-- A fitted Prophet model, abstracted: `model.predict(frame)` either
throws or yields a `yhat` (possibly non-finite) per requested date. -/
structure ProphetModel where
  predictAttempt : Except String (ℤ → Option ℚ)

/-- Oracle for `Prophet()` + `model.fit(df)`. -/
abbrev ProphetFit := List (ℤ × ℤ) → Except String ProphetModel

/-- Evaluation of `df["ds"].max()` over the prepared frame (0 if empty; Prophet would
have rejected an empty frame during fitting before this is used). -/
def colMaxDs (s : List (ℤ × ℤ)) : ℤ :=
  match s.map Prod.fst with
  | [] => 0
  | d :: ds => ds.foldl max d

/-- Embedding of `forecast_demand_prophet` (`forecast.py` lines 20-53): prepare the
series, fit, predict over `make_future_dataframe(periods=horizon)`
(history dates plus `horizon` daily steps after the last one), keep only
rows with `ds` strictly greater than the last history date.  Any
exception is swallowed and the empty list returned. -/
def forecast_demand_prophet (fit : ProphetFit) (obs : List Obs) (horizon : ℕ) :
    List (ℤ × Option ℚ) :=
  let df := prophetPrep obs
  match fit df with
  | .error _ => []
  | .ok m =>
      match m.predictAttempt with
      | .error _ => []
      | .ok yhat =>
          let maxDs := colMaxDs df
          let future := df.map Prod.fst ++
            (List.range horizon).map (fun i : ℕ => maxDs + minutesPerDay * ((i : ℤ) + 1))
          let forecast := future.map (fun d => (d, yhat d))
          forecast.filter (fun p => maxDs < p.1)

/-! ## Backtest Evaluator -/

/-- Python list/frame slice `x[:-h]` (for `h = 0` this is `x[:0] = []`). -/
def pySliceToNeg {α : Type} (l : List α) (h : ℕ) : List α :=
  if h = 0 then [] else l.take (l.length - h)

/-- Python list/frame slice `x[-h:]` (for `h = 0` this is `x[0:] = x`). -/
def pySliceFromNeg {α : Type} (l : List α) (h : ℕ) : List α :=
  if h = 0 then l else l.drop (l.length - h)

/-- Mean absolute error over kept (actual, predicted) pairs. -/
def maeOf (ps : List (ℤ × Option ℚ)) : ℚ :=
  ((ps.map (fun p => |(p.1 : ℚ) - (p.2.getD 0)|)).sum) / (ps.length : ℚ)

/-- Mean squared error over kept pairs (the code reports its square
root as `rmse`; the square root of a rational is in general irrational,
so we record the radicand). -/
def mseOf (ps : List (ℤ × Option ℚ)) : ℚ :=
  ((ps.map (fun p => ((p.1 : ℚ) - (p.2.getD 0)) ^ 2)).sum) / (ps.length : ℚ)

/-- The `metrics` dict: either the `"NaN"`/`"NaN"` sentinel pair or
numeric `mae` and `rmse = sqrt mse`. -/
inductive Metrics where
  | nanSentinel
  | computed (mae : ℚ) (mse : ℚ)
deriving DecidableEq

/-- Result of `backtest_prophet_forecast`: the insufficient-data error
dict, a fit/predict failure error dict, or the metrics + validation
forecast dict. -/
inductive ProphetBT where
  | insufficientData
  | fitFailed (e : String)
  | predictFailed (e : String)
  | success (metrics : Metrics) (validationForecast : List (ℤ × Option ℚ))
deriving DecidableEq

/-- Embedding of `backtest_prophet_forecast` (`forecast.py` lines 100-164).  The outer
`Except` is an exception escaping the function: in the branch where every
prediction is non-finite the code assigns the `"NaN"` metrics sentinel and
then executes `logger.info(f"... MAE={mae:.2f} ...")`, reading the local
`mae` which was never assigned in that branch, so a `NameError` escapes. -/
def backtest_prophet_forecast (fit : ProphetFit) (obs : List Obs)
    (validation_horizon : ℕ) : Except String ProphetBT :=
  let df := prophetPrep obs
  let train_df := pySliceToNeg df validation_horizon
  let validation_df := pySliceFromNeg df validation_horizon
  if train_df = [] ∨ validation_df = [] then .ok .insufficientData
  else
    match fit train_df with
    | .error e => .ok (.fitFailed ("Prophet model fitting failed: " ++ e))
    | .ok m =>
        match m.predictAttempt with
        | .error e => .ok (.predictFailed ("Prophet model prediction failed: " ++ e))
        | .ok yhat =>
            let validation_forecast := validation_df.map (fun p => (p.1, yhat p.1))
            let kept := ((validation_df.map Prod.snd).zip
              (validation_forecast.map Prod.snd)).filter (fun q => q.2.isSome)
            if kept = [] then
              .error "NameError: name mae is not defined"
            else
              .ok (.success (.computed (maeOf kept) (mseOf kept)) validation_forecast)

/-- Result of `backtest_arima_forecast`: the insufficient-data error dict;
the generic failure dict `{"error": e, "metrics": NaN-sentinel,
"forecast": []}` produced by its `except` clause; or the success dict. -/
inductive ArimaBT where
  | insufficientData
  | failed (e : String) (metrics : Metrics) (forecast : List (ℤ × Option ℚ))
  | success (metrics : Metrics) (forecast : List (ℤ × Option ℚ)) (orderUsed : ArimaOrder)
deriving DecidableEq

/-- A fitted ARIMA model for backtesting: `model_fit.predict(start, end)`
gives an in-sample/forecast value per date of the validation index. -/
structure ArimaBTModel where
  predictAt : ℤ → Option ℚ

/-- Oracle for `ARIMA(train_ts, order).fit()` inside the backtest.  An
`error` stands for any exception raised while fitting or predicting. -/
abbrev ArimaBTFit := List (ℤ × ℤ) → ArimaOrder → Except String ArimaBTModel

/-- Embedding of `backtest_arima_forecast` (`forecast.py` lines 167-234): daily
`Grouper` aggregation (no `asfreq`/`ffill` here), positional split, fit on
the training prefix, predict exactly the validation dates, pairwise
exclusion of non-finite predictions.  The whole fit/metrics block sits in
one `try`, so the `NameError` raised by the completion log in the
all-non-finite branch is caught and converted to the failure dict (whose
metrics are the `"NaN"` sentinel and whose forecast list is empty). -/
def backtest_arima_forecast (fit : ArimaBTFit) (obs : List Obs)
    (validation_horizon : ℕ) (order : ArimaOrder) : ArimaBT :=
  let ts := grouperDaily obs
  let train_ts := pySliceToNeg ts validation_horizon
  let validation_ts := pySliceFromNeg ts validation_horizon
  if train_ts = [] ∨ validation_ts = [] then .insufficientData
  else
    match fit train_ts order with
    | .error e => .failed ("ARIMA forecasting failed: " ++ e) .nanSentinel []
    | .ok m =>
        let validation_forecast := validation_ts.map (fun p => (p.1, m.predictAt p.1))
        let kept := ((validation_ts.map Prod.snd).zip
          (validation_forecast.map Prod.snd)).filter (fun q => q.2.isSome)
        if kept = [] then
          .failed "ARIMA forecasting failed: name mae is not defined" .nanSentinel []
        else
          .success (.computed (maeOf kept) (mseOf kept)) validation_forecast order

/-! ## Reorder-Point Calculator (`products/utils.py`) -/

/-- The `Supplier` model (`suppliers/models.py`).  Only the declared
fields relevant here are kept; crucially, the model declares NO
`lead_time_days` field. -/
structure Supplier where
  name : String

/-- Python attribute access `supplier.lead_time_days`: the `Supplier`
model has no such field (and no migration adds one), so the access raises
`AttributeError`. -/
def Supplier.lead_time_days (_ : Supplier) : Except String ℤ :=
  .error "AttributeError: Supplier object has no attribute lead_time_days"

/-- The `Product` model (`products/models.py`), restricted to the fields
the reorder-point calculation can see: `sku`, the optional `supplier`
foreign key, and the product-level `lead_time_days` column (default 7). -/
structure Product where
  sku : String
  supplier : Option Supplier
  lead_time_days : ℤ

/-- Outcome of the HTTP fetch in `get_forecasted_demand`: a transport or
status error (`requests.exceptions.RequestException`), a `KeyError` while
digging `forecast_data["forecast"]` / `item["yhat"]` out of the JSON, or
the list of `yhat` values of the forecast. -/
inductive FetchResult where
  | requestError (msg : String)
  | keyError (msg : String)
  | ok (yhats : List ℚ)

/-- Oracle for the `requests.get` call on the per-SKU ARIMA forecast URL
plus JSON parsing: determined by the SKU and the lead time in the URL. -/
abbrev FetchOracle := String → ℤ → FetchResult

/-- Embedding of `get_forecasted_demand` (`utils.py` lines 40-71): sum the fetched
`yhat`s; on `RequestException` or `KeyError` print and return 0. -/
def get_forecasted_demand (fetch : FetchOracle) (product : Product)
    (lead_time_days : ℤ) : ℚ :=
  match fetch product.sku lead_time_days with
  | .requestError _ => 0
  | .keyError _ => 0
  | .ok yhats => yhats.sum

/-- Oracle for `np.std` over a non-empty quantity list. -/
abbrev StdOracle := List ℤ → ℚ

/-- Embedding of `get_demand_std_dev` (`utils.py` lines 73-97): standard deviation of
the quantities transacted in the last 90 days (`sales` is the queried
list), or the fixed fallback 5 when that window is empty. -/
def get_demand_std_dev (npStd : StdOracle) (sales : List ℤ) : ℚ :=
  match sales with
  | [] => 5
  | _ => npStd sales

/-- Python `int()` on a float: truncation toward zero. -/
def pyTrunc (q : ℚ) : ℤ := if 0 ≤ q then ⌊q⌋ else ⌈q⌉

/-- The arithmetic tail of `calculate_reorder_point` (`utils.py` lines
28-38) once a lead time is in hand: forecasted demand plus
`norm.ppf(service_level) * std_dev`, truncated and clamped at zero. -/
def reorderFormula (ppf : ℚ → ℚ) (fetch : FetchOracle) (npStd : StdOracle)
    (sales : List ℤ) (product : Product) (service_level : ℚ)
    (lead_time_days : ℤ) : ℤ :=
  let forecasted_demand := get_forecasted_demand fetch product lead_time_days
  let demand_std_dev := get_demand_std_dev npStd sales
  let z_score := ppf service_level
  let safety_stock := z_score * demand_std_dev
  max 0 (pyTrunc (forecasted_demand + safety_stock))

/-- Embedding of `calculate_reorder_point` (`utils.py` lines 13-38).  The lead time is
`product.supplier.lead_time_days if product.supplier else 7`; since the
`Supplier` model has no `lead_time_days` attribute, the supplier branch
raises.  `ppf` is the `scipy.stats.norm.ppf` oracle, `npStd` the
`np.std` oracle, `sales` the quantities of the product transactions of
the most recent 90 days. -/
def calculate_reorder_point (ppf : ℚ → ℚ) (fetch : FetchOracle)
    (npStd : StdOracle) (sales : List ℤ) (product : Product)
    (service_level : ℚ) : Except String ℤ :=
  match product.supplier with
  | some s =>
      match s.lead_time_days with
      | .error e => .error e
      | .ok lt => .ok (reorderFormula ppf fetch npStd sales product service_level lt)
  | none => .ok (reorderFormula ppf fetch npStd sales product service_level 7)

/-! ## ARIMA entry points (`products/views.py`) -/

/-- An HTTP response of the ARIMA views, by payload shape and status. -/
inductive ViewResp where
  | notFound (msg : String)
  | badRequest (msg : String)
  | serverError (msg : String)
  | okForecast (forecast : List (ℤ × ℚ)) (orderUsed : ArimaOrder)
  | okBacktest (metrics : Metrics) (forecast : List (ℤ × Option ℚ)) (orderUsed : ArimaOrder)

/-- Python `s.split(",")`, by structural recursion over the characters
(an empty string yields `[""]`, like Python). -/
def pySplitCommaAux : List Char → List Char → List String
  | [], acc => [String.mk acc.reverse]
  | c :: cs, acc =>
      if c = ',' then String.mk acc.reverse :: pySplitCommaAux cs []
      else pySplitCommaAux cs (c :: acc)

/-- Python `s.split(",")`. -/
def pySplitComma (s : String) : List String := pySplitCommaAux s.data []

/-- The numeric value of a decimal digit character. -/
def digitVal? (c : Char) : Option ℕ :=
  if '0' ≤ c ∧ c ≤ '9' then some (c.toNat - '0'.toNat) else none

/-- Decimal accumulation over a digit run; `none` at the first non-digit. -/
def pyNatAux : List Char → ℕ → Option ℕ
  | [], acc => some acc
  | c :: cs, acc =>
      match digitVal? c with
      | none => none
      | some d => pyNatAux cs (acc * 10 + d)

/-- Python `int(token)`: optional sign then a non-empty digit run, else a
`ValueError` (modelled as `none`; Python additionally strips surrounding
whitespace and allows underscores, immaterial here). -/
def pyInt? (s : String) : Option ℤ :=
  match s.data with
  | [] => none
  | '-' :: cs => if cs = [] then none else (pyNatAux cs 0).map (fun n => -(n : ℤ))
  | '+' :: cs => if cs = [] then none else (pyNatAux cs 0).map (fun n => (n : ℤ))
  | cs => (pyNatAux cs 0).map (fun n => (n : ℤ))

/-- Order parsing `p, d, q = map(int, arima_order_str.split(","))` — `none` when a token
is not an integer or the token count is not 3 (both raise `ValueError`). -/
def parseArimaOrder (s : String) : Option ArimaOrder :=
  match (pySplitComma s).map pyInt? with
  | [some p, some d, some q] => some (p, d, q)
  | _ => none

/-- Error message of the malformed-order 400 responses (quotes elided). -/
def invalidOrderMsg : String := "Invalid arima_order format. Use p,d,q (e.g., 2,1,2)."

/-- Error message of the non-positive-horizon 400 response. -/
def nonPositiveHorizonMsg : String := "Validation horizon must be a positive integer."

/-- Embedding of `get_arima_demand_forecast` (`views.py` lines 180-267): 404 when the
product or its transactions are missing, 400 on a malformed order string,
then straight into `forecast_demand_arima` — the horizon (a non-negative
integer by the `<int:horizon>` URL converter) is never validated.  A
raised forecasting exception becomes a 500. -/
def get_arima_demand_forecast (fit : ArimaFit) (productExists : Bool)
    (transactions : List Obs) (horizon : ℕ) (arima_order_str : Option String) :
    ViewResp :=
  if !productExists then .notFound "Product not found."
  else if transactions = [] then
    .notFound "No historical transaction data found for this product."
  else
    let parsed : Option ArimaOrder :=
      match arima_order_str with
      | none => some (5, 1, 0)
      | some s => parseArimaOrder s
    match parsed with
    | none => .badRequest invalidOrderMsg
    | some order =>
        match forecast_demand_arima fit transactions horizon order with
        | .error e => .serverError ("ARIMA forecasting failed: " ++ e)
        | .ok forecast => .okForecast forecast order

/-- Embedding of `get_arima_backtesting` (`views.py` lines 423-516): 404 checks, then
the horizon positivity check, then order parsing, then the backtest; any
dict containing an `"error"` key comes back as a 400. -/
def get_arima_backtesting (fit : ArimaBTFit) (productExists : Bool)
    (transactions : List Obs) (validation_horizon : ℕ)
    (arima_order_str : Option String) : ViewResp :=
  if !productExists then .notFound "Product not found."
  else if transactions = [] then
    .notFound "No historical transaction data found for this product."
  else if validation_horizon = 0 then .badRequest nonPositiveHorizonMsg
  else
    let parsed : Option ArimaOrder :=
      match arima_order_str with
      | none => some (5, 1, 0)
      | some s => parseArimaOrder s
    match parsed with
    | none => .badRequest invalidOrderMsg
    | some order =>
        match backtest_arima_forecast fit transactions validation_horizon order with
        | .insufficientData =>
            .badRequest "Insufficient data for backtesting. Need data for both training and validation periods."
        | .failed e _ _ => .badRequest e
        | .success metrics forecast orderUsed => .okBacktest metrics forecast orderUsed

/-! ## Helper lemmas about the preparation pipeline -/

lemma seriesValue_map_of_mem {α : Type} (f : ℤ → α) :
    ∀ (ds : List ℤ) (d : ℤ), d ∈ ds →
      seriesValue (ds.map (fun x => (x, f x))) d = some (f d) := by
  intro ds
  induction ds with
  | nil => intro d h; cases h
  | cons x xs ih =>
      intro d h
      by_cases hx : x = d
      · subst hx
        unfold seriesValue
        rw [List.map_cons, List.find?_cons_of_pos _ (by simp)]
        rfl
      · have hd : d ∈ xs := by
          rcases List.mem_cons.mp h with h1 | h2
          · exact absurd h1.symm hx
          · exact h2
        unfold seriesValue at ih ⊢
        rw [List.map_cons, List.find?_cons_of_neg _ (by simp [hx])]
        exact ih d hd

lemma dateRange_ne_nil (lo hi : ℤ) : dateRange lo hi ≠ [] := by
  intro h
  have := congrArg List.length h
  simp [dateRange] at this

lemma mem_dateRange {lo hi d : ℤ} :
    d ∈ dateRange lo hi ↔ lo ≤ d ∧ d ≤ lo + (((hi - lo).toNat : ℤ)) := by
  simp only [dateRange, List.mem_map, List.mem_range]
  constructor
  · rintro ⟨i, hi', rfl⟩
    omega
  · rintro ⟨h1, h2⟩
    exact ⟨(d - lo).toNat, by omega, by omega⟩

lemma dateRange_head? (lo hi : ℤ) : (dateRange lo hi).head? = some lo := by
  simp [dateRange, List.range_succ_eq_map]

lemma dateRange_getLast? (lo hi : ℤ) :
    (dateRange lo hi).getLast? = some (lo + (((hi - lo).toNat : ℤ))) := by
  unfold dateRange
  rw [List.range_succ, List.map_append]
  simp [List.getLast?_concat]

lemma dateRange_pairwise (lo hi : ℤ) : (dateRange lo hi).Pairwise (· < ·) := by
  unfold dateRange
  exact (List.pairwise_lt_range _).map _ (fun a b h => by omega)

lemma dateRange_chain' (lo hi : ℤ) :
    List.Chain' (fun a b => b = a + 1) (dateRange lo hi) := by
  unfold dateRange
  rw [List.chain'_map]
  rw [List.chain'_range_succ]
  intro m _
  push_cast
  ring

lemma sortedTimes_sorted (obs : List Obs) : (sortedTimes obs).Sorted (· ≤ ·) :=
  List.sorted_insertionSort _ _

lemma mem_sortedTimes {obs : List Obs} {t : ℤ} :
    t ∈ sortedTimes obs ↔ t ∈ obs.map Prod.fst := by
  unfold sortedTimes
  rw [(List.perm_insertionSort _ _).mem_iff, List.mem_dedup]

lemma sorted_head_le {t : ℤ} {ts : List ℤ} (h : (t :: ts).Sorted (· ≤ ·))
    {x : ℤ} (hx : x ∈ t :: ts) : t ≤ x := by
  rcases List.mem_cons.mp hx with rfl | hx'
  · exact le_refl _
  · exact (List.pairwise_cons.mp h).1 x hx'

lemma sorted_le_getLastD : ∀ {ts : List ℤ} {t : ℤ}, (t :: ts).Sorted (· ≤ ·) →
    ∀ {x : ℤ}, x ∈ t :: ts → x ≤ ts.getLastD t := by
  intro ts
  induction ts with
  | nil =>
      intro t _ x hx
      simp only [List.mem_singleton] at hx
      simp [hx]
  | cons b bs ih =>
      intro t hs x hx
      have hs' : (b :: bs).Sorted (· ≤ ·) := hs.of_cons
      rcases List.mem_cons.mp hx with rfl | hx'
      · have htb : x ≤ b := (List.pairwise_cons.mp hs).1 b (List.mem_cons_self _ _)
        have hb : b ≤ bs.getLastD b := ih hs' (List.mem_cons_self _ _)
        rw [List.getLastD_cons]
        exact le_trans htb hb
      · rw [List.getLastD_cons]
        exact ih hs' hx'

lemma dayOf_mono {a b : ℤ} (h : a ≤ b) : dayOf a ≤ dayOf b := by
  unfold dayOf minutesPerDay
  exact Int.ediv_le_ediv (by norm_num) h

lemma grouperDaily_eq_of {obs : List Obs} {t : ℤ} {ts : List ℤ}
    (h : sortedTimes obs = t :: ts) :
    grouperDaily obs =
      (dateRange (dayOf t) (dayOf (ts.getLastD t))).map (fun d => (d, daySum obs d)) := by
  unfold grouperDaily
  rw [h]

lemma seriesValue_grouperDaily {obs : List Obs} {t : ℤ} (h : t ∈ obs.map Prod.fst) :
    seriesValue (grouperDaily obs) (dayOf t) = some (daySum obs (dayOf t)) := by
  have hmem : t ∈ sortedTimes obs := mem_sortedTimes.mpr h
  rcases hst : sortedTimes obs with _ | ⟨a, as⟩
  · rw [hst] at hmem; cases hmem
  · rw [grouperDaily_eq_of hst]
    apply seriesValue_map_of_mem
    rw [hst] at hmem
    have hsorted : (a :: as).Sorted (· ≤ ·) := hst ▸ sortedTimes_sorted obs
    have h1 := dayOf_mono (sorted_head_le hsorted hmem)
    have h2 := dayOf_mono (sorted_le_getLastD hsorted hmem)
    rw [mem_dateRange]
    exact ⟨h1, by omega⟩

lemma prophetPrep_map_fst (obs : List Obs) :
    (prophetPrep obs).map Prod.fst = sortedTimes obs := by
  unfold prophetPrep
  rw [List.map_map]
  exact List.map_id _

lemma seriesValue_prophetPrep {obs : List Obs} {t : ℤ} (h : t ∈ obs.map Prod.fst) :
    seriesValue (prophetPrep obs) t = some (tsSum obs t) :=
  seriesValue_map_of_mem _ _ _ (mem_sortedTimes.mpr h)

lemma prophetPrep_pairwise (obs : List Obs) :
    (prophetPrep obs).Pairwise (fun a b => a.1 ≤ b.1) := by
  unfold prophetPrep
  exact (sortedTimes_sorted obs).map _ (fun a b hab => hab)

lemma grouperDaily_pairwise (obs : List Obs) :
    (grouperDaily obs).Pairwise (fun a b => a.1 ≤ b.1) := by
  unfold grouperDaily
  rcases sortedTimes obs with _ | ⟨t, ts⟩
  · simp
  · exact (dateRange_pairwise _ _).map _ (fun a b hab => le_of_lt hab)

lemma grouperDaily_chain' (obs : List Obs) :
    List.Chain' (fun a b => b.1 = a.1 + 1) (grouperDaily obs) := by
  unfold grouperDaily
  rcases sortedTimes obs with _ | ⟨t, ts⟩
  · simp
  · rw [List.chain'_map]
    exact dateRange_chain' _ _

lemma pairwise_take_drop {α : Type} {R : α → α → Prop} {l : List α}
    (h : l.Pairwise R) (k : ℕ) : ∀ a ∈ l.take k, ∀ b ∈ l.drop k, R a b := by
  have hl := List.take_append_drop k l
  rw [← hl] at h
  exact (List.pairwise_append.mp h).2.2

lemma pySlice_empty_iff {α : Type} (l : List α) (h : ℕ) (hpos : 1 ≤ h) :
    (pySliceToNeg l h = [] ∨ pySliceFromNeg l h = []) ↔ l.length ≤ h := by
  have hne : h ≠ 0 := by omega
  simp only [pySliceToNeg, pySliceFromNeg, if_neg hne]
  constructor
  · rintro (h1 | h2)
    · have := congrArg List.length h1
      simp [List.length_take] at this
      omega
    · have := congrArg List.length h2
      simp [List.length_drop] at this
      omega
  · intro hle
    left
    have hz : l.length - h = 0 := by omega
    rw [hz, List.take_zero]

lemma ffillAux_map_some (c : Option ℤ) (l : List (ℤ × ℤ)) :
    ffillAux c (l.map (fun p => (p.1, some p.2))) = l.map (fun p => (p.1, some p.2)) := by
  induction l generalizing c with
  | nil => rfl
  | cons p ps ih =>
      obtain ⟨d, v⟩ := p
      simp [ffillAux, ih]

lemma asfreqD_range_map (lo hi : ℤ) (f : ℤ → ℤ) :
    asfreqD ((dateRange lo hi).map (fun d => (d, f d))) =
      (dateRange lo hi).map (fun d => (d, some (f d))) := by
  have hne : ((dateRange lo hi).map (fun d => (d, f d))) ≠ [] := by
    simpa using dateRange_ne_nil lo hi
  unfold asfreqD
  rw [if_neg (by simpa [List.isEmpty_iff] using hne)]
  have h1 : firstDate ((dateRange lo hi).map (fun d => (d, f d))) = lo := by
    unfold firstDate
    rw [List.head?_map, dateRange_head?]
    rfl
  have h2 : lastDate ((dateRange lo hi).map (fun d => (d, f d)))
      = lo + (((hi - lo).toNat : ℤ)) := by
    unfold lastDate
    rw [List.getLast?_map, dateRange_getLast?]
    rfl
  rw [h1, h2]
  have h3 : dateRange lo (lo + (((hi - lo).toNat : ℤ))) = dateRange lo hi := by
    unfold dateRange
    congr 2
    omega
  rw [h3]
  apply List.map_congr_left
  intro d hd
  rw [seriesValue_map_of_mem f _ _ hd]

lemma arimaPrep_eq (obs : List Obs) :
    arimaPrep obs = (grouperDaily obs).map (fun p => (p.1, some p.2)) := by
  unfold arimaPrep
  rcases hst : sortedTimes obs with _ | ⟨t, ts⟩
  · have hg : grouperDaily obs = [] := by unfold grouperDaily; rw [hst]
    rw [hg]
    rfl
  · rw [grouperDaily_eq_of hst, asfreqD_range_map]
    have hmm : (dateRange (dayOf t) (dayOf (ts.getLastD t))).map
        (fun d => (d, some (daySum obs d)))
        = ((dateRange (dayOf t) (dayOf (ts.getLastD t))).map
            (fun d => (d, daySum obs d))).map (fun p => (p.1, some p.2)) := by
      rw [List.map_map]
      rfl
    rw [hmm, ffill, ffillAux_map_some]

lemma arimaPrep_chain' (obs : List Obs) :
    List.Chain' (fun a b => b.1 = a.1 + 1) (arimaPrep obs) := by
  rw [arimaPrep_eq, List.chain'_map]
  exact grouperDaily_chain' obs

lemma pySliceToNeg_eq {α : Type} (l : List α) {h : ℕ} (hpos : 1 ≤ h) :
    pySliceToNeg l h = l.take (l.length - h) :=
  if_neg (by omega)

lemma pySliceFromNeg_eq {α : Type} (l : List α) {h : ℕ} (hpos : 1 ≤ h) :
    pySliceFromNeg l h = l.drop (l.length - h) :=
  if_neg (by omega)

lemma pySlice_chronological {α : Type} {R : α → α → Prop} {l : List α}
    (hp : l.Pairwise R) (h : ℕ) :
    ∀ a ∈ pySliceToNeg l h, ∀ b ∈ pySliceFromNeg l h, R a b := by
  intro a ha b hb
  by_cases h0 : h = 0
  · rw [pySliceToNeg, if_pos h0] at ha
    cases ha
  · rw [pySliceToNeg, if_neg h0] at ha
    rw [pySliceFromNeg, if_neg h0] at hb
    exact pairwise_take_drop hp _ a ha b hb

/-! ## Concrete models, oracles and inputs used by witnesses and
counterexamples -/

/-- An ARIMA model whose every forecast step is 1. -/
def constArimaModel : ArimaModel where
  forecastSteps := fun n => List.replicate n 1
  forecast_len := fun n => List.length_replicate n 1

/-- A fit oracle that always succeeds with `constArimaModel`. -/
def constArimaFit : ArimaFit := fun _ _ => .ok constArimaModel

/-- A fit oracle whose fitting always throws (e.g. a singular matrix). -/
def failArimaFit : ArimaFit := fun _ _ => .error "LinAlgError: singular matrix"

/-- A Prophet fit oracle whose fitting always throws. -/
def failProphetFit : ProphetFit := fun _ => .error "LinAlgError: singular matrix"

/-- A Prophet fit oracle whose model predicts NaN for every date. -/
def nanProphetFit : ProphetFit := fun _ => .ok ⟨.ok (fun _ => none)⟩

/-- A backtest ARIMA fit oracle whose model predicts NaN for every date. -/
def nanArimaBTFit : ArimaBTFit := fun _ _ => .ok ⟨fun _ => none⟩

/-- A backtest ARIMA fit oracle whose fitting always throws. -/
def failArimaBTFit : ArimaBTFit := fun _ _ => .error "boom"

/-- A forecast-API fit oracle whose fitting always throws. -/
def boomArimaFit : ArimaFit := fun _ _ => .error "boom"

/-- Three transactions on three consecutive days (timestamps at
midnight of days 0, 1 and 2). -/
def obsThreeDays : List Obs := [(0, 5), (1440, 3), (2880, 4)]

/-- Two transactions on the same calendar day, one hour apart. -/
def obsSameDay : List Obs := [(0, 3), (60, 4)]

/-- Two transactions with a one-day gap between them (days 0 and 2). -/
def obsGapDay : List Obs := [(0, 5), (2880, 3)]

/-- Two transactions on two consecutive days. -/
def obsTwoDays : List Obs := [(0, 2), (1440, 3)]

/-! ## Claim theorems -/

/-- Claim **C1** (code bug).  On the series with observations on days 0, 1 and 2
(last observed day 2), the Strategy B (ARIMA) forecast for horizon 3 does
return exactly 3 points with strictly increasing dates, but
`pd.date_range(start=ts.index[-1], periods=horizon, freq="D")` includes
its start, so the forecast dates are days 2, 3, 4 — the first forecast
point falls ON the last observed date, not the day after, and the 3
future forecast values are shifted one day early. -/
theorem c1_arima_forecast_dates :
    forecast_demand_arima constArimaFit obsThreeDays 3 (5, 1, 0)
      = Except.ok [((2 : ℤ), (1 : ℚ)), (3, 1), (4, 1)]
    ∧ lastDate (arimaPrep obsThreeDays) = 2 :=
  ⟨rfl, rfl⟩

/-- Claim **C2** (amended).  Both preparation paths sum the quantities of
observations sharing the same groupby key — but the Prophet path keys on
the exact `ds` timestamp while the ARIMA path bins by calendar day: at
every observed timestamp `t`, the Prophet series holds the sum over
observations with that exact timestamp, and the ARIMA series holds, at
day `dayOf t`, the sum over all observations of that calendar day. -/
theorem c2_per_key_aggregation (obs : List Obs) (t : ℤ)
    (ht : t ∈ obs.map Prod.fst) :
    seriesValue (prophetPrep obs) t = some (tsSum obs t)
    ∧ seriesValue (grouperDaily obs) (dayOf t) = some (daySum obs (dayOf t)) :=
  ⟨seriesValue_prophetPrep ht, seriesValue_grouperDaily ht⟩

/-- Claim **C2** witness: two transactions of 3 and 4 units at the same
timestamp yield 7 in the Prophet series and 7 in the ARIMA day bin. -/
theorem c2_per_key_aggregation_witness :
    ((0 : ℤ) ∈ ([((0 : ℤ), (3 : ℤ)), (0, 4)] : List Obs).map Prod.fst)
    ∧ seriesValue (prophetPrep [((0 : ℤ), (3 : ℤ)), (0, 4)]) 0
        = some (tsSum [((0 : ℤ), (3 : ℤ)), (0, 4)] 0)
    ∧ seriesValue (grouperDaily [((0 : ℤ), (3 : ℤ)), (0, 4)]) (dayOf 0)
        = some (daySum [((0 : ℤ), (3 : ℤ)), (0, 4)] (dayOf 0))
    ∧ tsSum [((0 : ℤ), (3 : ℤ)), (0, 4)] 0 = 7 :=
  ⟨by decide, (c2_per_key_aggregation _ 0 (by decide)).1,
    (c2_per_key_aggregation _ 0 (by decide)).2, by decide⟩

/-- Claim **C2** counterexample: transactions of 3 and 4 units one hour apart on
the same calendar day (timestamps 0 and 60, both on day 0).  The Prophet
preparation keeps them as two separate rows with values 3 and 4 — no
entry of the series carries the daily total 7 — while the ARIMA
preparation does sum them to 7. -/
theorem c2_counterexample :
    prophetPrep obsSameDay = [(0, 3), (60, 4)]
    ∧ (prophetPrep obsSameDay).map (fun p => dayOf p.1) = [0, 0]
    ∧ grouperDaily obsSameDay = [(0, 7)] :=
  ⟨by decide, by decide, by decide⟩

/-- Claim **C6** (amended).  For every non-empty input, the ARIMA preparation
produces exactly the daily `Grouper` aggregation with every value present:
one entry per consecutive calendar day, a day without activity holding the
(zero) sum of its empty bin — so the `asfreq("D")`/`fillna(ffill)` steps
have no effect.  The Prophet preparation performs no reindexing at all:
its index is exactly the list of distinct observed timestamps. -/
theorem c6_dense_daily_zero_fill (obs : List Obs) (_hne : obs ≠ []) :
    arimaPrep obs = (grouperDaily obs).map (fun p => (p.1, some p.2))
    ∧ List.Chain' (fun a b => b.1 = a.1 + 1) (arimaPrep obs)
    ∧ (prophetPrep obs).map Prod.fst = sortedTimes obs :=
  ⟨arimaPrep_eq obs, arimaPrep_chain' obs, prophetPrep_map_fst obs⟩

/-- Claim **C6** witness at the gapped input (days 0 and 2). -/
theorem c6_dense_daily_zero_fill_witness :
    (obsGapDay ≠ [])
    ∧ arimaPrep obsGapDay = (grouperDaily obsGapDay).map (fun p => (p.1, some p.2))
    ∧ List.Chain' (fun a b => b.1 = a.1 + 1) (arimaPrep obsGapDay)
    ∧ (prophetPrep obsGapDay).map Prod.fst = sortedTimes obsGapDay :=
  ⟨by decide, (c6_dense_daily_zero_fill obsGapDay (by decide)).1,
    (c6_dense_daily_zero_fill obsGapDay (by decide)).2.1,
    (c6_dense_daily_zero_fill obsGapDay (by decide)).2.2⟩

/-- Claim **C6** counterexample: observations of 5 units on day 0 and 3 units on
day 2.  The claim requires the activity-free day 1 to carry the last known
value 5 forward; the code gives it the empty-bin sum 0.  Moreover the
Prophet-path series is not reindexed at all: it has two entries, not one
per day. -/
theorem c6_counterexample :
    arimaPrep obsGapDay = [(0, some 5), (1, some 0), (2, some 3)]
    ∧ prophetPrep obsGapDay = [(0, 5), (2880, 3)] :=
  ⟨by decide, by decide⟩

/-- Claim **C7** (confirmed).  Whenever model fitting throws, Strategy A
(Prophet) swallows the exception and returns the empty forecast list,
while Strategy B (ARIMA) re-raises it to the caller. -/
theorem c7_fit_failure_asymmetry (fitP : ProphetFit) (fitA : ArimaFit)
    (obs : List Obs) (horizon : ℕ) (order : ArimaOrder) (e eA : String)
    (hP : fitP (prophetPrep obs) = Except.error e)
    (hA : fitA (arimaPrep obs) order = Except.error eA) :
    forecast_demand_prophet fitP obs horizon = []
    ∧ forecast_demand_arima fitA obs horizon order = Except.error eA := by
  constructor
  · simp only [forecast_demand_prophet]
    rw [hP]
  · simp only [forecast_demand_arima]
    rw [hA]

/-- Claim **C7** witness: a concrete always-throwing fit. -/
theorem c7_fit_failure_asymmetry_witness :
    forecast_demand_prophet failProphetFit obsTwoDays 5 = []
    ∧ forecast_demand_arima failArimaFit obsTwoDays 5 (5, 1, 0)
        = Except.error "LinAlgError: singular matrix" :=
  c7_fit_failure_asymmetry failProphetFit failArimaFit obsTwoDays 5 (5, 1, 0)
    "LinAlgError: singular matrix" "LinAlgError: singular matrix" rfl rfl

/-- The Prophet backtest reports the insufficient-data error exactly when
one of the two positional slices is empty. -/
lemma prophetBT_insufficient_iff (fit : ProphetFit) (obs : List Obs) (h : ℕ) :
    backtest_prophet_forecast fit obs h = Except.ok ProphetBT.insufficientData
      ↔ (pySliceToNeg (prophetPrep obs) h = [] ∨ pySliceFromNeg (prophetPrep obs) h = []) := by
  simp only [backtest_prophet_forecast]
  by_cases hc : pySliceToNeg (prophetPrep obs) h = [] ∨ pySliceFromNeg (prophetPrep obs) h = []
  · rw [if_pos hc]
    simp [hc]
  · rw [if_neg hc]
    simp only [hc, iff_false]
    intro heq
    split at heq
    · simp at heq
    · split at heq
      · simp at heq
      · split at heq
        · simp at heq
        · simp at heq

/-- The ARIMA backtest reports the insufficient-data error exactly when
one of the two positional slices is empty. -/
lemma arimaBT_insufficient_iff (fit : ArimaBTFit) (obs : List Obs) (h : ℕ)
    (order : ArimaOrder) :
    backtest_arima_forecast fit obs h order = ArimaBT.insufficientData
      ↔ (pySliceToNeg (grouperDaily obs) h = [] ∨ pySliceFromNeg (grouperDaily obs) h = []) := by
  simp only [backtest_arima_forecast]
  by_cases hc : pySliceToNeg (grouperDaily obs) h = [] ∨ pySliceFromNeg (grouperDaily obs) h = []
  · rw [if_pos hc]
    simp [hc]
  · rw [if_neg hc]
    simp only [hc, iff_false]
    intro heq
    split at heq
    · simp at heq
    · split at heq
      · simp at heq
      · simp at heq

/-- Claim **C4** (confirmed).  For every positive validation horizon, both
backtests split the prepared series into the positional training prefix
`series[:-h]` and validation suffix `series[-h:]`, report the
insufficient-data error exactly when the series length is at most `h`
(which covers the empty series), and the split is chronological: no
validation date precedes any training date. -/
theorem c4_backtest_split (obs : List Obs) (h : ℕ) (hpos : 1 ≤ h)
    (fitP : ProphetFit) (fitA : ArimaBTFit) (order : ArimaOrder) :
    (backtest_prophet_forecast fitP obs h = Except.ok ProphetBT.insufficientData
      ↔ (prophetPrep obs).length ≤ h)
    ∧ (backtest_arima_forecast fitA obs h order = ArimaBT.insufficientData
      ↔ (grouperDaily obs).length ≤ h)
    ∧ (∀ a ∈ pySliceToNeg (prophetPrep obs) h,
        ∀ b ∈ pySliceFromNeg (prophetPrep obs) h, a.1 ≤ b.1)
    ∧ (∀ a ∈ pySliceToNeg (grouperDaily obs) h,
        ∀ b ∈ pySliceFromNeg (grouperDaily obs) h, a.1 ≤ b.1) :=
  ⟨(prophetBT_insufficient_iff fitP obs h).trans (pySlice_empty_iff _ _ hpos),
   (arimaBT_insufficient_iff fitA obs h order).trans (pySlice_empty_iff _ _ hpos),
   pySlice_chronological (prophetPrep_pairwise obs) h,
   pySlice_chronological (grouperDaily_pairwise obs) h⟩

/-- Claim **C4** witness: a one-day series with horizon 1 is insufficient for
both backtests (the training slice is empty). -/
theorem c4_backtest_split_witness :
    backtest_prophet_forecast failProphetFit [((0 : ℤ), (2 : ℤ))] 1
      = Except.ok ProphetBT.insufficientData
    ∧ backtest_arima_forecast failArimaBTFit [((0 : ℤ), (2 : ℤ))] 1 (0, 0, 0)
      = ArimaBT.insufficientData :=
  ⟨((c4_backtest_split [((0 : ℤ), (2 : ℤ))] 1 (by decide) failProphetFit
      failArimaBTFit (0, 0, 0)).1).mpr (by decide),
   ((c4_backtest_split [((0 : ℤ), (2 : ℤ))] 1 (by decide) failProphetFit
      failArimaBTFit (0, 0, 0)).2.1).mpr (by decide)⟩

/-- Claim **C5** (code bug).  On a two-day series with validation horizon 1 and
a model whose prediction for the validation date is NaN, the pairwise
exclusion leaves empty arrays; the code assigns the `"NaN"` metrics
sentinel but then its completion log line reads the never-assigned local
`mae`: the Prophet backtest raises `NameError` out of the function instead
of returning the sentinel metrics, and the ARIMA backtest only reports the
sentinel through its generic exception handler, bundled with an error
message and an empty forecast list. -/
theorem c5_nan_sentinel_crash :
    backtest_prophet_forecast nanProphetFit obsTwoDays 1
      = Except.error "NameError: name mae is not defined"
    ∧ backtest_arima_forecast nanArimaBTFit obsTwoDays 1 (0, 0, 0)
      = ArimaBT.failed "ARIMA forecasting failed: name mae is not defined"
          Metrics.nanSentinel [] :=
  ⟨rfl, rfl⟩

/-- A fetch oracle that fails (connection refused). -/
def failFetch : FetchOracle := fun _ _ => .requestError "connection refused"

/-- A fetch oracle that yields the forecast `[3]` only for the default
lead time 7, and fails for any other lead time: a probe showing which
lead time the calculation passes to the forecast URL. -/
def leadProbeFetch : FetchOracle :=
  fun _ lt => if lt = 7 then .ok [3] else .requestError "unexpected lead time"

/-- An `np.std` oracle returning 10. -/
def exStd : StdOracle := fun _ => 10

/-- A `norm.ppf` oracle returning -1 (a negative z-score, so the safety
stock buffer is negative). -/
def negPpf : ℚ → ℚ := fun _ => -1

/-- A `norm.ppf` oracle returning 1. -/
def onePpf : ℚ → ℚ := fun _ => 1

/-- A supplier row as declared by `suppliers/models.py`. -/
def exSupplier : Supplier := ⟨"Acme"⟩

/-- A product whose supplier foreign key is set. -/
def exProductWithSupplier : Product := ⟨"SKU-2", some exSupplier, 12⟩

/-- A product with no supplier (its own `lead_time_days` column is 12). -/
def exProductNoSupplier : Product := ⟨"SKU-1", none, 12⟩

/-- Claim **C3** (amended).  For every product *whose supplier foreign key is
null* — the only products on which the calculation completes, see C10 —
and every service level, `calculate_reorder_point` returns the forecasted
lead-time demand plus the safety-stock buffer
`norm.ppf(service_level) * std_dev`, truncated toward zero and clamped at
zero, hence a non-negative integer even when the buffer is negative. -/
theorem c3_reorder_point_formula (ppf : ℚ → ℚ) (fetch : FetchOracle)
    (npStd : StdOracle) (sales : List ℤ) (p : Product) (service_level : ℚ)
    (hp : p.supplier = none) :
    calculate_reorder_point ppf fetch npStd sales p service_level
      = Except.ok (max 0 (pyTrunc (get_forecasted_demand fetch p 7
          + ppf service_level * get_demand_std_dev npStd sales)))
    ∧ 0 ≤ max 0 (pyTrunc (get_forecasted_demand fetch p 7
          + ppf service_level * get_demand_std_dev npStd sales)) := by
  constructor
  · unfold calculate_reorder_point
    rw [hp]
    rfl
  · exact le_max_left _ _

/-- Claim **C3** witness, the scenario of the spec: forecasted demand 2, buffer
`-1 * 10 = -10`, so `2 - 10 = -8` is clamped to 0. -/
theorem c3_reorder_point_formula_witness :
    calculate_reorder_point negPpf (fun _ _ => .ok [2]) exStd [4]
      exProductNoSupplier (95 / 100) = Except.ok 0
    ∧ (0 : ℤ) ≤ max 0 (pyTrunc (get_forecasted_demand (fun _ _ => .ok [2])
        exProductNoSupplier 7 + negPpf (95 / 100) * get_demand_std_dev exStd [4])) := by
  have h := c3_reorder_point_formula negPpf (fun _ _ => .ok [2]) exStd [4]
    exProductNoSupplier (95 / 100) rfl
  constructor
  · rw [h.1]
    congr 1
    have hval : pyTrunc (get_forecasted_demand (fun _ _ => .ok [2]) exProductNoSupplier 7
        + negPpf (95 / 100) * get_demand_std_dev exStd [4]) = -8 := by
      simp only [get_forecasted_demand, get_demand_std_dev, negPpf, exStd,
        exProductNoSupplier, pyTrunc, List.sum_cons, List.sum_nil]
      norm_num
      have hc : ((-8 : ℚ)) = (((-8 : ℤ) : ℚ)) := by norm_cast
      rw [hc, Int.ceil_intCast]
    rw [hval]
    omega
  · exact h.2

/-- Claim **C3** counterexample to the claim as stated (`for every product`):
for a product whose supplier is set, the calculation does not return an
integer at all — it raises `AttributeError` (see C10). -/
theorem c3_counterexample :
    calculate_reorder_point negPpf (fun _ _ => .ok [2]) exStd [4]
      exProductWithSupplier (95 / 100)
      = Except.error "AttributeError: Supplier object has no attribute lead_time_days" :=
  rfl

/-- Claim **C8** (confirmed).  If the forecast fetch raises
(`RequestException`), the response payload lacks an expected key
(`KeyError`), or the forecast list is empty, the forecasted demand is
taken as 0; if no transactions fall in the 90-day window, the standard
deviation falls back to 5; and (for a product the calculation runs on at
all, i.e. one with no supplier — see C10) the reorder-point calculation
still completes with a value. -/
theorem c8_graceful_fallbacks (fetch : FetchOracle) (p : Product) (lead : ℤ)
    (npStd : StdOracle) (sales : List ℤ) (ppf : ℚ → ℚ) (service_level : ℚ)
    (e k : String)
    (hf : fetch p.sku lead = FetchResult.requestError e
        ∨ fetch p.sku lead = FetchResult.keyError k
        ∨ fetch p.sku lead = FetchResult.ok [])
    (hs : sales = []) (hp : p.supplier = none) :
    get_forecasted_demand fetch p lead = 0
    ∧ get_demand_std_dev npStd sales = 5
    ∧ calculate_reorder_point ppf fetch npStd sales p service_level
        = Except.ok (reorderFormula ppf fetch npStd sales p service_level 7) := by
  refine ⟨?_, ?_, ?_⟩
  · unfold get_forecasted_demand
    rcases hf with h | h | h <;> (rw [h]; try rfl)
  · rw [hs]
    rfl
  · unfold calculate_reorder_point
    rw [hp]

/-- Claim **C8** witness: failing fetch, empty 90-day window. -/
theorem c8_graceful_fallbacks_witness :
    get_forecasted_demand failFetch exProductNoSupplier 7 = 0
    ∧ get_demand_std_dev exStd [] = 5
    ∧ calculate_reorder_point onePpf failFetch exStd [] exProductNoSupplier (95 / 100)
        = Except.ok (reorderFormula onePpf failFetch exStd [] exProductNoSupplier
            (95 / 100) 7) :=
  c8_graceful_fallbacks failFetch exProductNoSupplier 7 exStd [] onePpf (95 / 100)
    "connection refused" "yhat" (Or.inl rfl) rfl rfl

/-- Claim **C9** (amended).  A malformed ARIMA order string is rejected with the
invalid-parameter 400 before any model work at both ARIMA entry points,
and a non-positive (zero) validation horizon is likewise rejected at the
backtesting entry point; but the forecasting entry point performs no
horizon validation at all (see the counterexample: a zero horizon runs
straight into model fitting).  None of the three responses depends on the
fit oracles, which is exactly the sense in which rejection happens before
any model fitting work begins. -/
theorem c9_parameter_validation (fitF : ArimaFit) (fitBT : ArimaBTFit)
    (transactions : List Obs) (horizon vhor : ℕ) (s : String)
    (htx : transactions ≠ []) (hmal : parseArimaOrder s = none) (hv : 1 ≤ vhor) :
    get_arima_demand_forecast fitF true transactions horizon (some s)
      = ViewResp.badRequest invalidOrderMsg
    ∧ get_arima_backtesting fitBT true transactions vhor (some s)
      = ViewResp.badRequest invalidOrderMsg
    ∧ get_arima_backtesting fitBT true transactions 0 (some s)
      = ViewResp.badRequest nonPositiveHorizonMsg := by
  have hvz : vhor ≠ 0 := by omega
  refine ⟨?_, ?_, ?_⟩
  · simp [get_arima_demand_forecast, htx, hmal]
  · simp [get_arima_backtesting, htx, hmal, hvz]
  · simp [get_arima_backtesting, htx]

/-- Claim **C9** witness: the malformed order string `"x"` and the zero
backtesting horizon are rejected with 400s. -/
theorem c9_parameter_validation_witness :
    get_arima_demand_forecast boomArimaFit true [((0 : ℤ), (5 : ℤ))] 14 (some "x")
      = ViewResp.badRequest invalidOrderMsg
    ∧ get_arima_backtesting failArimaBTFit true [((0 : ℤ), (5 : ℤ))] 7 (some "x")
      = ViewResp.badRequest invalidOrderMsg
    ∧ get_arima_backtesting failArimaBTFit true [((0 : ℤ), (5 : ℤ))] 0 (some "x")
      = ViewResp.badRequest nonPositiveHorizonMsg :=
  c9_parameter_validation boomArimaFit failArimaBTFit [((0 : ℤ), (5 : ℤ))] 14 7 "x"
    (by decide) rfl (by decide)

/-- Claim **C9** counterexample to the claim as stated: a zero (non-positive)
horizon at the forecasting entry point is NOT rejected with an
invalid-parameter error — the request reaches `forecast_demand_arima` and
model fitting begins, as shown by the fitting failure surfacing as the
500 response. -/
theorem c9_counterexample :
    get_arima_demand_forecast boomArimaFit true [((0 : ℤ), (5 : ℤ))] 0 none
      = ViewResp.serverError "ARIMA forecasting failed: boom" :=
  rfl

/-- Claim **C10** (code bug).  The calculation takes the lead time from the
supplier when one is set and from the constant 7 otherwise, never from the
product row: (1) with a supplier set, the attribute access
`product.supplier.lead_time_days` raises `AttributeError`, because the
`Supplier` model declares no such field; (2) with no supplier, the
forecast is fetched for lead time 7 (the probe oracle only answers for
lead 7, and the calculation succeeds with its data: 3 + 1 * 5 = 8); (3)
the result never depends on the `lead_time_days` column of the product
row itself. -/
theorem c10_lead_time_source :
    calculate_reorder_point onePpf leadProbeFetch exStd [] exProductWithSupplier (95 / 100)
      = Except.error "AttributeError: Supplier object has no attribute lead_time_days"
    ∧ calculate_reorder_point onePpf leadProbeFetch exStd [] exProductNoSupplier (95 / 100)
      = Except.ok 8
    ∧ (∀ (p : Product) (x : ℤ) (ppf : ℚ → ℚ) (fetch : FetchOracle)
        (npStd : StdOracle) (sales : List ℤ) (sl : ℚ),
        calculate_reorder_point ppf fetch npStd sales
          { p with lead_time_days := x } sl
        = calculate_reorder_point ppf fetch npStd sales p sl) := by
  refine ⟨rfl, ?_, ?_⟩
  · norm_num [calculate_reorder_point, reorderFormula, get_forecasted_demand,
      get_demand_std_dev, leadProbeFetch, exStd, onePpf, exProductNoSupplier, pyTrunc]
  · intro p x ppf fetch npStd sales sl
    rcases p with ⟨psku, psup, plt⟩
    cases psup <;> rfl

end Storer
